import Mathlib

/-!
Verification development for the photometry calculator (photometry.py).

The program is embedded shallowly over the rationals.  The external
collaborators (the numerical quadrature routine, the base-10 logarithm,
the power function and the constant ln 10) are abstracted into a
`Numerics` structure: every theorem below is proved for an arbitrary
such collaborator, exactly as the program treats scipy and math as
black boxes.  Exceptions are modelled with `Except`, the stateful
cosmology model and error model with explicit state passing plus an
event trace recording the external calls made.
-/

namespace PhotoZDC1

/-- External numeric collaborators: the quadrature routine `quad f a b`,
base-10 logarithm `log10`, the map `pow10 x` standing for `10 ^ x`, and
the constant `ln10` standing for `log(10)`. -/
structure Numerics where
  quad : (ℚ → ℚ) → ℚ → ℚ → ℚ
  log10 : ℚ → ℚ
  pow10 : ℚ → ℚ
  ln10 : ℚ

/-- A bandpass filter: transmission curve and wavelength range,
mirroring `Filter.getTrans` and `Filter.returnFilterRange`. -/
structure Filter where
  trans : ℚ → ℚ
  range : ℚ × ℚ

/-- Errors raised by the photometry code: Python `LookupError` and
`ValueError`, each carrying its message. -/
inductive PhotError where
  | lookupError (msg : String)
  | valueError (msg : String)
deriving DecidableEq

/-- A Python float result that is either finite or positive infinity
(`float("inf")`). -/
inductive RVal where
  | fin (q : ℚ)
  | inf
deriving DecidableEq

/-- Addition of a finite float to a possibly infinite one, as Python
float addition behaves in `aM + mu + kc`. -/
def RVal.addQ (x : ℚ) : RVal → RVal
  | .fin q => .fin (x + q)
  | .inf => .inf

/-- The state of a `PhotCalcs` object: the SED (its `getFlux` function of
wavelength and redshift) and the filter dictionary. -/
structure PhotCalcs where
  sed : ℚ → ℚ → ℚ
  filterDict : List (String × Filter)

/-- Transmission of the named filter at `lam`, looked up in the filter
dictionary (`self.filterDict[filtname].getTrans(lam)`); 0 if absent. -/
def getTransD (P : PhotCalcs) (filtname : String) (lam : ℚ) : ℚ :=
  match P.filterDict.lookup filtname with
  | some f => f.trans lam
  | none => 0

/-- `_integrand1(lam, z, filtname) = Sed(lam/(1+z))*Filt(lam)*lam`. -/
def integrand1 (P : PhotCalcs) (z : ℚ) (filtname : String) (lam : ℚ) : ℚ :=
  P.sed lam z * getTransD P filtname lam * lam

/-- `_integrand2(lam, filtname) = Filt(lam)/lam`. -/
def integrand2 (P : PhotCalcs) (filtname : String) (lam : ℚ) : ℚ :=
  getTransD P filtname lam / lam

/-- `PhotCalcs.kCorrectionXY(filtX, filtY, z)`: the k-correction between
observed-frame filter X and rest-frame filter Y for the SED at
redshift z.  Translated line by line from the source. -/
def kCorrectionXY (N : Numerics) (P : PhotCalcs) (filtX filtY : String) (z : ℚ) :
    Except PhotError RVal :=
  match P.filterDict.lookup filtX with
  | none => .error (.lookupError ("Filter " ++ filtX ++ " is not in the filter dictionary"))
  | some fX =>
    match P.filterDict.lookup filtY with
    | none => .error (.lookupError ("Filter " ++ filtY ++ " is not in the filter dictionary"))
    | some fY =>
      let aX := fX.range.1
      let bX := fX.range.2
      let aY := fY.range.1
      let bY := fY.range.2
      let int1 := N.quad (integrand1 P z filtX) aX bX
      let int3 := N.quad (integrand1 P 0 filtY) aY bY
      let ints24 : Except PhotError (ℚ × ℚ) :=
        if filtX ≠ filtY then
          let int2 := N.quad (integrand2 P filtY) aY bY
          let int4 := N.quad (integrand2 P filtX) aX bX
          if int2 = 0 ∨ int4 = 0 then
            .error (.valueError "ERROR: one or more filters integrate to zero")
          else .ok (int2, int4)
        else .ok (1, 1)
      match ints24 with
      | .error e => .error e
      | .ok (int2, int4) =>
        if int1 = 0 then .ok .inf
        else if int3 = 0 then
          .error (.valueError "ERROR: ?? no flux within rest-frame filter??")
        else .ok (.fin (-2.5 * N.log10 (1 / (1 + z) * (int1 * int2) / (int3 * int4))))

/-- `PhotCalcs.computeColor(filtX, filtY, z)`: color of the SED at
redshift z, in magnitudes.  Note that all four integrals use the bounds
`aX, bX` of filter X, exactly as the source does. -/
def computeColor (N : Numerics) (P : PhotCalcs) (filtX filtY : String) (z : ℚ) :
    Except PhotError ℚ :=
  match P.filterDict.lookup filtX with
  | none => .error (.lookupError ("Filter " ++ filtX ++ " is not in the filter dictionary"))
  | some fX =>
    match P.filterDict.lookup filtY with
    | none => .error (.lookupError ("Filter " ++ filtY ++ " is not in the filter dictionary"))
    | some fY =>
      if filtX = filtY then
        .error (.valueError "ERROR! cannot have color as difference between same filter")
      else
        let aX := fX.range.1
        let bX := fX.range.2
        let _aY := fY.range.1
        let _bY := fY.range.2
        let int1 := N.quad (integrand1 P z filtX) aX bX
        let int2 := N.quad (integrand1 P z filtY) aX bX
        let int3 := N.quad (integrand2 P filtX) aX bX
        let int4 := N.quad (integrand2 P filtY) aX bX
        let zp := -2.5 * N.log10 (int4 / int3)
        .ok (-2.5 * N.log10 (int1 / int2) + zp)

/-- `PhotCalcs.convertMagToFlux(mag)`: AB magnitude to flux,
`pow(10, -0.4*mag)*Fc` with `Fc = 1`. -/
def convertMagToFlux (N : Numerics) (mag : ℚ) : ℚ :=
  let Fc : ℚ := 1
  N.pow10 (-0.4 * mag) * Fc

/-- `PhotCalcs.convertFluxToMag(flux)`: flux to AB magnitude,
raising for `flux <= 0`. -/
def convertFluxToMag (N : Numerics) (flux : ℚ) : Except PhotError ℚ :=
  if flux ≤ 0 then .error (.valueError "flux cannot be <=0")
  else
    let Fc : ℚ := 1
    .ok (-2.5 * N.log10 (flux / Fc))

/-- `PhotCalcs.convertFluxAndErrorToMags(flux, dFluxOverFlux)`. -/
def convertFluxAndErrorToMags (N : Numerics) (flux dFluxOverFlux : ℚ) :
    Except PhotError (ℚ × ℚ) :=
  if flux ≤ 0 then .error (.valueError "flux cannot be <=0")
  else if dFluxOverFlux < 0 then .error (.valueError "fractional flux error cannot be <=0")
  else
    let errorMag := dFluxOverFlux / (0.4 * N.ln10)
    let mag := -2.5 * N.log10 flux
    .ok (mag, errorMag)

/-- `PhotCalcs.convertMagErrorToFracFluxError(errorMag)`. -/
def convertMagErrorToFracFluxError (N : Numerics) (errorMag : ℚ) :
    Except PhotError ℚ :=
  if errorMag < 0 then .error (.valueError "error on magnitude cannot be <=0")
  else .ok (errorMag * (0.4 * N.ln10))

/-- A call made to the cosmology model: setting the emission redshift or
reading the luminosity distance. -/
inductive CosmoCall where
  | setZ (z : ℚ)
  | readDist
deriving DecidableEq

/-- The stateful cosmology model: its current emission redshift, its
luminosity-distance law, and the trace of calls made to it. -/
structure CosmoModel where
  zEmission : ℚ
  lumDistAt : ℚ → ℚ
  trace : List CosmoCall

/-- `cosmoModel.setEmissionRedShift(z)`: mutate the emission redshift. -/
def setEmissionRedShift (c : CosmoModel) (z : ℚ) : CosmoModel :=
  { c with zEmission := z, trace := c.trace ++ [.setZ z] }

/-- `cosmoModel.LuminosityDistanceMpc()`: read the luminosity distance at
the current emission redshift. -/
def LuminosityDistanceMpc (c : CosmoModel) : ℚ × CosmoModel :=
  (c.lumDistAt c.zEmission, { c with trace := c.trace ++ [.readDist] })

/-- The state of a `CalcMag` object: a `PhotCalcs` plus the cosmology
model. -/
structure CalcMag extends PhotCalcs where
  cosmoModel : CosmoModel

/-- The stateful error model: its observation law (a function of the true
magnitude, the filter name, the SED and the size) and the trace of
arguments it has been called with. -/
structure ErrorModel where
  obsAt : ℚ → String → (ℚ → ℚ → ℚ) → ℚ → ℚ × ℚ
  trace : List (ℚ × String × (ℚ → ℚ → ℚ) × ℚ)

/-- `errorModel.getObs(mag, filtObs, sed, size)`: one call to the error
model, recorded in its trace. -/
def ErrorModel.getObs (e : ErrorModel) (mag : ℚ) (filt : String) (sed : ℚ → ℚ → ℚ)
    (size : ℚ) : (ℚ × ℚ) × ErrorModel :=
  (e.obsAt mag filt sed size, { e with trace := e.trace ++ [(mag, filt, sed, size)] })

/-- The state of an `ObsMag` object: a `CalcMag` plus the error model. -/
structure ObsMag extends CalcMag where
  errorModel : ErrorModel

/-- `CalcMag.getMag(filtObs, z, absMag)`: observed magnitude in filter
`filtObs` of a galaxy at redshift `z` with absolute magnitude
`absMag = (filtRF, aM)`.  Returns the magnitude and the updated object
state (only the cosmology model is mutated). -/
def CalcMag.getMag (N : Numerics) (s : CalcMag) (filtObs : String) (z : ℚ)
    (absMag : String × ℚ) : Except PhotError (RVal × CalcMag) :=
  let filtRF := absMag.1
  let aM := absMag.2
  match kCorrectionXY N s.toPhotCalcs filtObs filtRF z with
  | .error e => .error e
  | .ok kc =>
    let c1 := setEmissionRedShift s.cosmoModel z
    let r := LuminosityDistanceMpc c1
    let dL := r.1
    let mu := if (1e-5 : ℚ) < dL then 5 * N.log10 dL + 25 else 0
    let mag := RVal.addQ (aM + mu) kc
    .ok (mag, { s with cosmoModel := r.2 })

/-- `ObsMag.simulateObservation(filtObs, z, absMag, size)`: simulate an
observed magnitude.  Returns `(obsmag, emag, mag)` and the updated
object state. -/
def ObsMag.simulateObservation (N : Numerics) (s : ObsMag) (filtObs : String) (z : ℚ)
    (absMag : String × ℚ) (size : ℚ) :
    Except PhotError ((RVal × RVal × RVal) × ObsMag) :=
  match CalcMag.getMag N s.toCalcMag filtObs z absMag with
  | .error e => .error e
  | .ok (mag, cm) =>
    let s1 : ObsMag := { toCalcMag := cm, errorModel := s.errorModel }
    match mag with
    | .inf => .ok ((.inf, .inf, mag), s1)
    | .fin m =>
      let r := ErrorModel.getObs s1.errorModel m filtObs s1.sed size
      let obsmag := r.1.1
      let emag := r.1.2
      .ok ((.fin obsmag, .fin emag, mag), { s1 with errorModel := r.2 })

/-- The integral `∫ SED_flux(λ,z)·transmission_filt(λ)·λ dλ` over the
range of the named filter, as computed by the quadrature collaborator. -/
def intSED (N : Numerics) (P : PhotCalcs) (filt : String) (z : ℚ) : ℚ :=
  match P.filterDict.lookup filt with
  | some f => N.quad (integrand1 P z filt) f.range.1 f.range.2
  | none => 0

/-- The integral `∫ transmission_filt(λ)/λ dλ` over the range of the named
filter, as computed by the quadrature collaborator. -/
def intFilt (N : Numerics) (P : PhotCalcs) (filt : String) : ℚ :=
  match P.filterDict.lookup filt with
  | some f => N.quad (integrand2 P filt) f.range.1 f.range.2
  | none => 0

/-- The value used for the integral `I2` of the k-correction: skipped and
set to 1 when the two filters coincide, the filter-Y normalization
integral otherwise. -/
def I2val (N : Numerics) (P : PhotCalcs) (filtX filtY : String) : ℚ :=
  if filtX = filtY then 1 else intFilt N P filtY

/-- The value used for the integral `I4` of the k-correction: skipped and
set to 1 when the two filters coincide, the filter-X normalization
integral otherwise. -/
def I4val (N : Numerics) (P : PhotCalcs) (filtX filtY : String) : ℚ :=
  if filtX = filtY then 1 else intFilt N P filtX

lemma kCorrectionXY_ok (N : Numerics) (P : PhotCalcs) (filtX filtY : String) (z : ℚ)
    (fX fY : Filter)
    (hX : P.filterDict.lookup filtX = some fX)
    (hY : P.filterDict.lookup filtY = some fY)
    (h1 : intSED N P filtX z ≠ 0)
    (h2 : I2val N P filtX filtY ≠ 0)
    (h3 : intSED N P filtY 0 ≠ 0)
    (h4 : I4val N P filtX filtY ≠ 0) :
    kCorrectionXY N P filtX filtY z =
      .ok (.fin (-2.5 * N.log10 (1 / (1 + z) *
        (intSED N P filtX z * I2val N P filtX filtY) /
        (intSED N P filtY 0 * I4val N P filtX filtY)))) := by
  have hS1 : intSED N P filtX z = N.quad (integrand1 P z filtX) fX.range.1 fX.range.2 := by
    simp [intSED, hX]
  have hS3 : intSED N P filtY 0 = N.quad (integrand1 P 0 filtY) fY.range.1 fY.range.2 := by
    simp [intSED, hY]
  by_cases hEq : filtX = filtY
  · subst hEq
    simp only [I2val, if_pos rfl] at h2 ⊢
    simp only [I4val, if_pos rfl] at h4 ⊢
    rw [hY] at hX
    have hfXY : fX = fY := (Option.some.inj hX).symm
    subst hfXY
    simp only [kCorrectionXY, hY, ne_eq, not_true_eq_false, if_false, reduceCtorEq]
    rw [← hS1, ← hS3]
    simp [h1, h3]
  · simp only [I2val, if_neg hEq] at h2 ⊢
    simp only [I4val, if_neg hEq] at h4 ⊢
    have hF2 : intFilt N P filtY = N.quad (integrand2 P filtY) fY.range.1 fY.range.2 := by
      simp [intFilt, hY]
    have hF4 : intFilt N P filtX = N.quad (integrand2 P filtX) fX.range.1 fX.range.2 := by
      simp [intFilt, hX]
    simp only [kCorrectionXY, hX, hY, ne_eq, hEq, not_false_eq_true, if_true]
    rw [← hS1, ← hS3, ← hF2, ← hF4]
    simp [h1, h2, h3, h4]

/-- A concrete numerics collaborator used to exercise the theorems: the
quadrature rule evaluates the integrand at the right endpoint. -/
def Ntest : Numerics :=
  { quad := fun f a b => (b - a) * f b
    log10 := fun _ => 0
    pow10 := fun _ => 1
    ln10 := 1 }

/-- A concrete box filter on wavelength range [1, 2]. -/
def filtU : Filter := { trans := fun _ => 1, range := (1, 2) }

/-- A concrete box filter on wavelength range [3, 4]. -/
def filtV : Filter := { trans := fun _ => 1, range := (3, 4) }

/-- A concrete degenerate filter: zero transmission over [1, 2]. -/
def filtZero : Filter := { trans := fun _ => 0, range := (1, 2) }

/-- A concrete photometry state: flat unit SED, one filter. -/
def Pone : PhotCalcs := { sed := fun _ _ => 1, filterDict := [("u", filtU)] }

/-- Claim C1: for filters present in the collection and redshift z, when
none of the four integrals is zero, `kCorrectionXY` returns
`-2.5*log10((1/(1+z)) * (I1*I2)/(I3*I4))` with I1 the observed-frame
SED integral over the range of X, I3 the rest-frame SED integral over the
range of Y, and, when the filters differ, I2 and I4 the filter
normalization integrals; when `filtX = filtY`, I2 = I4 = 1 and the
result reduces to `-2.5*log10((1/(1+z)) * I1/I3)`. -/
theorem claimC1_kCorrectionXY_formula (N : Numerics) (P : PhotCalcs)
    (filtX filtY : String) (z : ℚ) (fX fY : Filter)
    (hX : P.filterDict.lookup filtX = some fX)
    (hY : P.filterDict.lookup filtY = some fY)
    (h1 : intSED N P filtX z ≠ 0)
    (h2 : I2val N P filtX filtY ≠ 0)
    (h3 : intSED N P filtY 0 ≠ 0)
    (h4 : I4val N P filtX filtY ≠ 0) :
    kCorrectionXY N P filtX filtY z =
      .ok (.fin (-2.5 * N.log10 (1 / (1 + z) *
        (intSED N P filtX z * I2val N P filtX filtY) /
        (intSED N P filtY 0 * I4val N P filtX filtY)))) ∧
    (filtX = filtY →
      kCorrectionXY N P filtX filtY z =
        .ok (.fin (-2.5 * N.log10 (1 / (1 + z) *
          intSED N P filtX z / intSED N P filtY 0)))) := by
  refine ⟨kCorrectionXY_ok N P filtX filtY z fX fY hX hY h1 h2 h3 h4, fun hEq => ?_⟩
  rw [kCorrectionXY_ok N P filtX filtY z fX fY hX hY h1 h2 h3 h4]
  simp [I2val, I4val, hEq]

/-- Witness for claim C1 at a concrete input: one box filter used as both
X and Y, flat SED, z = 1. -/
theorem claimC1_witness :
    kCorrectionXY Ntest Pone "u" "u" 1 =
      .ok (.fin (-2.5 * Ntest.log10 (1 / (1 + 1) *
        (intSED Ntest Pone "u" 1 * I2val Ntest Pone "u" "u") /
        (intSED Ntest Pone "u" 0 * I4val Ntest Pone "u" "u")))) :=
  (claimC1_kCorrectionXY_formula Ntest Pone "u" "u" 1 filtU filtU rfl rfl
    (by simp [intSED, Pone, Ntest, filtU, integrand1, getTransD, List.lookup]; norm_num)
    (by simp [I2val])
    (by simp [intSED, Pone, Ntest, filtU, integrand1, getTransD, List.lookup]; norm_num)
    (by simp [I4val])).1

/-- A concrete photometry state: flat unit SED, two distinct filters. -/
def Ptwo : PhotCalcs :=
  { sed := fun _ _ => 1, filterDict := [("u", filtU), ("v", filtV)] }

/-- Claim C5: for distinct filters present in the collection,
`computeColor` returns `-2.5*log10(J1/J2) + zp` where all four
integrals, including the zero-point integrals, use the wavelength
range of filter X as bounds, and `zp = -2.5*log10(K2/K1)`. -/
theorem claimC5_computeColor_formula (N : Numerics) (P : PhotCalcs)
    (filtX filtY : String) (z : ℚ) (fX fY : Filter)
    (hX : P.filterDict.lookup filtX = some fX)
    (hY : P.filterDict.lookup filtY = some fY)
    (hne : filtX ≠ filtY) :
    computeColor N P filtX filtY z =
      .ok (-2.5 * N.log10 (N.quad (integrand1 P z filtX) fX.range.1 fX.range.2 /
             N.quad (integrand1 P z filtY) fX.range.1 fX.range.2) +
           -2.5 * N.log10 (N.quad (integrand2 P filtY) fX.range.1 fX.range.2 /
             N.quad (integrand2 P filtX) fX.range.1 fX.range.2)) := by
  simp only [computeColor, hX, hY, if_neg hne]

/-- Witness for claim C5 at a concrete input: two distinct box filters,
flat SED, z = 1. -/
theorem claimC5_witness :
    computeColor Ntest Ptwo "u" "v" 1 =
      .ok (-2.5 * Ntest.log10 (Ntest.quad (integrand1 Ptwo 1 "u") filtU.range.1 filtU.range.2 /
             Ntest.quad (integrand1 Ptwo 1 "v") filtU.range.1 filtU.range.2) +
           -2.5 * Ntest.log10 (Ntest.quad (integrand2 Ptwo "v") filtU.range.1 filtU.range.2 /
             Ntest.quad (integrand2 Ptwo "u") filtU.range.1 filtU.range.2)) :=
  claimC5_computeColor_formula Ntest Ptwo "u" "v" 1 filtU filtV rfl rfl
    (by simp)

/-- Claim C6: both `kCorrectionXY` and `computeColor` fail with a
`LookupError` when either filter name is absent (the result does not
depend on any integration, since it holds for every quadrature
collaborator `N`), and `computeColor` on a present filter paired with
itself fails with the identical-filters `ValueError`; the lookup check
precedes the identical-filters check. -/
theorem claimC6_lookup_and_identical (N : Numerics) (P : PhotCalcs)
    (filtX filtY f : String) (z : ℚ) :
    (P.filterDict.lookup filtX = none →
      kCorrectionXY N P filtX filtY z =
        .error (.lookupError ("Filter " ++ filtX ++ " is not in the filter dictionary"))) ∧
    ((P.filterDict.lookup filtX).isSome → P.filterDict.lookup filtY = none →
      kCorrectionXY N P filtX filtY z =
        .error (.lookupError ("Filter " ++ filtY ++ " is not in the filter dictionary"))) ∧
    (P.filterDict.lookup filtX = none →
      computeColor N P filtX filtY z =
        .error (.lookupError ("Filter " ++ filtX ++ " is not in the filter dictionary"))) ∧
    ((P.filterDict.lookup filtX).isSome → P.filterDict.lookup filtY = none →
      computeColor N P filtX filtY z =
        .error (.lookupError ("Filter " ++ filtY ++ " is not in the filter dictionary"))) ∧
    ((P.filterDict.lookup f).isSome →
      computeColor N P f f z =
        .error (.valueError "ERROR! cannot have color as difference between same filter")) := by
  refine ⟨fun hX => ?_, fun hX hY => ?_, fun hX => ?_, fun hX hY => ?_, fun hf => ?_⟩
  · simp only [kCorrectionXY, hX]
  · obtain ⟨fX, hfX⟩ := Option.isSome_iff_exists.mp hX
    simp only [kCorrectionXY, hfX, hY]
  · simp only [computeColor, hX]
  · obtain ⟨fX, hfX⟩ := Option.isSome_iff_exists.mp hX
    simp only [computeColor, hfX, hY]
  · obtain ⟨ff, hff⟩ := Option.isSome_iff_exists.mp hf
    simp only [computeColor, hff, eq_self_iff_true, if_true]

/-- Witness for claim C6 at concrete inputs: an absent filter name "g"
produces the lookup error, and a present filter paired with itself
produces the identical-filters error. -/
theorem claimC6_witness :
    kCorrectionXY Ntest Pone "g" "u" 1 =
      .error (.lookupError "Filter g is not in the filter dictionary") ∧
    computeColor Ntest Pone "u" "u" 1 =
      .error (.valueError "ERROR! cannot have color as difference between same filter") :=
  ⟨(claimC6_lookup_and_identical Ntest Pone "g" "u" "u" 1).1 (by simp [Pone, List.lookup]),
   (claimC6_lookup_and_identical Ntest Pone "g" "u" "u" 1).2.2.2.2 (by simp [Pone, List.lookup])⟩

/-- A concrete photometry state: identically zero SED, a box filter and a
degenerate (zero-transmission) filter. -/
def PzeroTwo : PhotCalcs :=
  { sed := fun _ _ => 0, filterDict := [("u", filtU), ("w", filtZero)] }

/-- A concrete photometry state: an SED whose flux equals the redshift,
so it vanishes in the rest frame but not at z = 1. -/
def Psedz : PhotCalcs := { sed := fun _ z => z, filterDict := [("u", filtU)] }

/-- Claim C2: the edge cases of `kCorrectionXY` apply in order: for
distinct filters a zero filter-normalization integral raises the
degenerate-filter `ValueError` (with no condition on I1, so it wins
over returning infinity); otherwise a zero observed-frame integral I1
returns `+inf` as a valid result; otherwise a zero rest-frame integral
I3 raises the degenerate rest-frame-flux `ValueError`. -/
theorem claimC2_kCorrection_edge_order (N : Numerics) (P : PhotCalcs)
    (filtX filtY : String) (z : ℚ) (fX fY : Filter)
    (hX : P.filterDict.lookup filtX = some fX)
    (hY : P.filterDict.lookup filtY = some fY) :
    (filtX ≠ filtY → (intFilt N P filtY = 0 ∨ intFilt N P filtX = 0) →
      kCorrectionXY N P filtX filtY z =
        .error (.valueError "ERROR: one or more filters integrate to zero")) ∧
    (I2val N P filtX filtY ≠ 0 → I4val N P filtX filtY ≠ 0 →
      intSED N P filtX z = 0 →
      kCorrectionXY N P filtX filtY z = .ok .inf) ∧
    (I2val N P filtX filtY ≠ 0 → I4val N P filtX filtY ≠ 0 →
      intSED N P filtX z ≠ 0 → intSED N P filtY 0 = 0 →
      kCorrectionXY N P filtX filtY z =
        .error (.valueError "ERROR: ?? no flux within rest-frame filter??")) := by
  have hS1 : intSED N P filtX z = N.quad (integrand1 P z filtX) fX.range.1 fX.range.2 := by
    simp [intSED, hX]
  have hS3 : intSED N P filtY 0 = N.quad (integrand1 P 0 filtY) fY.range.1 fY.range.2 := by
    simp [intSED, hY]
  have hF2 : intFilt N P filtY = N.quad (integrand2 P filtY) fY.range.1 fY.range.2 := by
    simp [intFilt, hY]
  have hF4 : intFilt N P filtX = N.quad (integrand2 P filtX) fX.range.1 fX.range.2 := by
    simp [intFilt, hX]
  refine ⟨fun hne hz => ?_, fun h2 h4 h1 => ?_, fun h2 h4 h1 h3 => ?_⟩
  · simp only [kCorrectionXY, hX, hY, ne_eq, hne, not_false_eq_true, if_true]
    rw [← hF2, ← hF4]
    rcases hz with hz | hz <;> simp [hz]
  · by_cases hEq : filtX = filtY
    · subst hEq
      rw [hY] at hX
      have hfXY : fX = fY := (Option.some.inj hX).symm
      subst hfXY
      simp only [kCorrectionXY, hY, ne_eq, not_true_eq_false, if_false, reduceCtorEq]
      rw [← hS1]
      simp [h1]
    · simp only [I2val, if_neg hEq] at h2
      simp only [I4val, if_neg hEq] at h4
      simp only [kCorrectionXY, hX, hY, ne_eq, hEq, not_false_eq_true, if_true]
      rw [← hS1, ← hF2, ← hF4]
      simp [h1, h2, h4]
  · by_cases hEq : filtX = filtY
    · subst hEq
      rw [hY] at hX
      have hfXY : fX = fY := (Option.some.inj hX).symm
      subst hfXY
      simp only [kCorrectionXY, hY, ne_eq, not_true_eq_false, if_false, reduceCtorEq]
      rw [← hS1, ← hS3]
      simp [h1, h3]
    · simp only [I2val, if_neg hEq] at h2
      simp only [I4val, if_neg hEq] at h4
      simp only [kCorrectionXY, hX, hY, ne_eq, hEq, not_false_eq_true, if_true]
      rw [← hS1, ← hS3, ← hF2, ← hF4]
      simp [h1, h2, h3, h4]

/-- Witness for claim C2 at concrete inputs: a degenerate filter wins
over zero observed flux (both I2 = 0 and I1 = 0 give the filter error),
a zero SED through one filter returns infinity, and an SED with flux
only at nonzero redshift raises the rest-frame error. -/
theorem claimC2_witness :
    (intSED Ntest PzeroTwo "u" 1 = 0 ∧
      kCorrectionXY Ntest PzeroTwo "u" "w" 1 =
        .error (.valueError "ERROR: one or more filters integrate to zero")) ∧
    kCorrectionXY Ntest PzeroTwo "u" "u" 1 = .ok .inf ∧
    kCorrectionXY Ntest Psedz "u" "u" 1 =
      .error (.valueError "ERROR: ?? no flux within rest-frame filter??") :=
  ⟨⟨by simp [intSED, PzeroTwo, Ntest, filtU, integrand1, getTransD, List.lookup],
    (claimC2_kCorrection_edge_order Ntest PzeroTwo "u" "w" 1 filtU filtZero rfl rfl).1
      (by simp)
      (Or.inl (by simp [intFilt, PzeroTwo, Ntest, filtZero, integrand2, getTransD, List.lookup]))⟩,
   (claimC2_kCorrection_edge_order Ntest PzeroTwo "u" "u" 1 filtU filtU rfl rfl).2.1
     (by simp [I2val]) (by simp [I4val])
     (by simp [intSED, PzeroTwo, Ntest, filtU, integrand1, getTransD, List.lookup]),
   (claimC2_kCorrection_edge_order Ntest Psedz "u" "u" 1 filtU filtU rfl rfl).2.2
     (by simp [I2val]) (by simp [I4val])
     (by simp [intSED, Psedz, Ntest, filtU, integrand1, getTransD, List.lookup]; norm_num)
     (by simp [intSED, Psedz, Ntest, filtU, integrand1, getTransD, List.lookup])⟩

/-- Claim C7: `convertFluxToMag` raises the domain `ValueError` for every
flux ≤ 0 and returns `-2.5*log10(flux)` for flux > 0;
`convertMagToFlux` returns `10^(-0.4*mag)`; and, provided the power
collaborator inverts the logarithm (`pow10 (log10 flux) = flux`, which
holds for exact arithmetic), the round trip through both conversions
is the identity on positive fluxes. -/
theorem claimC7_flux_mag_conversions (N : Numerics) (flux mag : ℚ) :
    (flux ≤ 0 → convertFluxToMag N flux = .error (.valueError "flux cannot be <=0")) ∧
    (0 < flux → convertFluxToMag N flux = .ok (-2.5 * N.log10 flux)) ∧
    (convertMagToFlux N mag = N.pow10 (-0.4 * mag)) ∧
    (0 < flux → N.pow10 (N.log10 flux) = flux →
      (convertFluxToMag N flux).map (convertMagToFlux N) = .ok flux) := by
  refine ⟨fun h => ?_, fun h => ?_, ?_, fun h hinv => ?_⟩
  · simp [convertFluxToMag, h]
  · simp [convertFluxToMag, not_le.mpr h]
  · simp [convertMagToFlux]
  · have harg : (-0.4 : ℚ) * (-2.5 * N.log10 flux) = N.log10 flux := by ring
    simp only [convertFluxToMag, if_neg (not_le.mpr h), Except.map, convertMagToFlux,
      div_one, mul_one]
    rw [harg, hinv]

/-- Witness for claim C7 at concrete inputs: domain errors at flux = 0
and flux = -1, and the round trip at flux = 1. -/
theorem claimC7_witness :
    convertFluxToMag Ntest 0 = .error (.valueError "flux cannot be <=0") ∧
    convertFluxToMag Ntest (-1) = .error (.valueError "flux cannot be <=0") ∧
    (convertFluxToMag Ntest 1).map (convertMagToFlux Ntest) = .ok 1 :=
  ⟨(claimC7_flux_mag_conversions Ntest 0 0).1 le_rfl,
   (claimC7_flux_mag_conversions Ntest (-1) 0).1 (by norm_num),
   (claimC7_flux_mag_conversions Ntest 1 0).2.2.2 one_pos (by simp [Ntest])⟩

/-- Claim C8: `convertFluxAndErrorToMags` raises the domain `ValueError`
unless flux > 0 and the fractional error is nonnegative, and otherwise
returns `(-2.5*log10 flux, fracError/(0.4*ln10))`;
`convertMagErrorToFracFluxError` raises for negative input and
otherwise returns `magError*(0.4*ln10)`; a zero fractional error maps
to a zero magnitude error; and for a positive-ln10 collaborator the
round trip through both error conversions is the identity. -/
theorem claimC8_flux_error_conversions (N : Numerics) (flux dFluxOverFlux errorMag : ℚ) :
    (flux ≤ 0 → convertFluxAndErrorToMags N flux dFluxOverFlux =
      .error (.valueError "flux cannot be <=0")) ∧
    (0 < flux → dFluxOverFlux < 0 → convertFluxAndErrorToMags N flux dFluxOverFlux =
      .error (.valueError "fractional flux error cannot be <=0")) ∧
    (0 < flux → 0 ≤ dFluxOverFlux → convertFluxAndErrorToMags N flux dFluxOverFlux =
      .ok (-2.5 * N.log10 flux, dFluxOverFlux / (0.4 * N.ln10))) ∧
    (errorMag < 0 → convertMagErrorToFracFluxError N errorMag =
      .error (.valueError "error on magnitude cannot be <=0")) ∧
    (0 ≤ errorMag → convertMagErrorToFracFluxError N errorMag =
      .ok (errorMag * (0.4 * N.ln10))) ∧
    (0 < flux → (convertFluxAndErrorToMags N flux 0).map Prod.snd = .ok 0) ∧
    (0 < flux → 0 ≤ dFluxOverFlux → 0 < N.ln10 →
      ∃ me, (convertFluxAndErrorToMags N flux dFluxOverFlux).map Prod.snd = .ok me ∧
        convertMagErrorToFracFluxError N me = .ok dFluxOverFlux) := by
  refine ⟨fun h => ?_, fun hf he => ?_, fun hf he => ?_, fun h => ?_, fun h => ?_,
    fun hf => ?_, fun hf he hl => ?_⟩
  · simp [convertFluxAndErrorToMags, h]
  · simp [convertFluxAndErrorToMags, not_le.mpr hf, he]
  · simp [convertFluxAndErrorToMags, not_le.mpr hf, not_lt.mpr he]
  · simp [convertMagErrorToFracFluxError, h]
  · simp [convertMagErrorToFracFluxError, not_lt.mpr h]
  · simp [convertFluxAndErrorToMags, not_le.mpr hf, Except.map]
  · have hd : (0.4 : ℚ) * N.ln10 ≠ 0 := by positivity
    refine ⟨dFluxOverFlux / (0.4 * N.ln10), ?_, ?_⟩
    · simp [convertFluxAndErrorToMags, not_le.mpr hf, not_lt.mpr he, Except.map]
    · have hnn : 0 ≤ dFluxOverFlux / (0.4 * N.ln10) := by positivity
      simp [convertMagErrorToFracFluxError, not_lt.mpr hnn, div_mul_cancel₀ _ hd]

/-- Witness for claim C8 at concrete inputs: domain error at negative
fractional error, zero error maps to zero, and the round trip at
flux = 1, fractional error = 3. -/
theorem claimC8_witness :
    convertFluxAndErrorToMags Ntest 1 (-1) =
      .error (.valueError "fractional flux error cannot be <=0") ∧
    (convertFluxAndErrorToMags Ntest 1 0).map Prod.snd = .ok 0 ∧
    ∃ me, (convertFluxAndErrorToMags Ntest 1 3).map Prod.snd = .ok me ∧
      convertMagErrorToFracFluxError Ntest me = .ok 3 :=
  ⟨(claimC8_flux_error_conversions Ntest 1 (-1) 0).2.1 one_pos (by norm_num),
   (claimC8_flux_error_conversions Ntest 1 0 0).2.2.2.2.2.1 one_pos,
   (claimC8_flux_error_conversions Ntest 1 3 0).2.2.2.2.2.2 one_pos (by norm_num)
     (by norm_num [Ntest])⟩

lemma getMag_eq (N : Numerics) (s : CalcMag) (filtObs : String) (z : ℚ)
    (absMag : String × ℚ) (kc : RVal)
    (hk : kCorrectionXY N s.toPhotCalcs filtObs absMag.1 z = .ok kc) :
    CalcMag.getMag N s filtObs z absMag =
      .ok (RVal.addQ (absMag.2 +
            (if (1e-5 : ℚ) < s.cosmoModel.lumDistAt z then
              5 * N.log10 (s.cosmoModel.lumDistAt z) + 25 else 0)) kc,
          { s with cosmoModel :=
              { zEmission := z, lumDistAt := s.cosmoModel.lumDistAt,
                trace := s.cosmoModel.trace ++ [CosmoCall.setZ z, CosmoCall.readDist] } }) := by
  simp [CalcMag.getMag, hk, setEmissionRedShift, LuminosityDistanceMpc]

lemma getMag_frame (N : Numerics) (s : CalcMag) (filtObs : String) (z : ℚ)
    (absMag : String × ℚ) (r : RVal × CalcMag)
    (h : CalcMag.getMag N s filtObs z absMag = .ok r) :
    r.2.toPhotCalcs = s.toPhotCalcs ∧
    r.2.cosmoModel = { zEmission := z, lumDistAt := s.cosmoModel.lumDistAt,
                       trace := s.cosmoModel.trace ++ [CosmoCall.setZ z, CosmoCall.readDist] } := by
  cases hk : kCorrectionXY N s.toPhotCalcs filtObs absMag.1 z with
  | error e => simp [CalcMag.getMag, hk] at h
  | ok kc =>
    rw [getMag_eq N s filtObs z absMag kc hk] at h
    have hr := (Except.ok.inj h).symm
    subst hr
    exact ⟨rfl, rfl⟩

/-- A concrete cosmology model: everything at luminosity distance 0. -/
def C0 : CosmoModel := { zEmission := 0, lumDistAt := fun _ => 0, trace := [] }

/-- A concrete error model: echoes the true magnitude with error 1. -/
def E0 : ErrorModel := { obsAt := fun m _ _ _ => (m, 1), trace := [] }

/-- A concrete photometry state: identically zero SED, one box filter. -/
def Pzero : PhotCalcs := { sed := fun _ _ => 0, filterDict := [("u", filtU)] }

/-- A concrete magnitude-calculator state. -/
def CM1 : CalcMag := { toPhotCalcs := Pone, cosmoModel := C0 }

/-- A concrete observation-simulator state with nonzero SED. -/
def SM1 : ObsMag := { toCalcMag := CM1, errorModel := E0 }

/-- A concrete observation-simulator state with zero SED. -/
def S0 : ObsMag :=
  { toCalcMag := { toPhotCalcs := Pzero, cosmoModel := C0 }, errorModel := E0 }

/-- Claim C4: `getMag(filtObs, z, (filtRF, aM))` returns `aM + mu + kc`
where `kc` is the k-correction, `dL` the luminosity distance of the
cosmology model after setting its emission redshift to z, and `mu = 0`
when `dL ≤ 1e-5` while `mu = 5*log10(dL) + 25` when `dL > 1e-5`; in
particular the result is exactly `aM` when `dL ≤ 1e-5` and `kc = 0`. -/
theorem claimC4_getMag (N : Numerics) (s : CalcMag) (filtObs : String) (z : ℚ)
    (filtRF : String) (aM : ℚ) (kc : RVal)
    (hk : kCorrectionXY N s.toPhotCalcs filtObs filtRF z = .ok kc) :
    (s.cosmoModel.lumDistAt z ≤ 1e-5 →
      (CalcMag.getMag N s filtObs z (filtRF, aM)).map Prod.fst =
        .ok (RVal.addQ aM kc)) ∧
    (1e-5 < s.cosmoModel.lumDistAt z →
      (CalcMag.getMag N s filtObs z (filtRF, aM)).map Prod.fst =
        .ok (RVal.addQ (aM + (5 * N.log10 (s.cosmoModel.lumDistAt z) + 25)) kc)) ∧
    (s.cosmoModel.lumDistAt z ≤ 1e-5 → kc = .fin 0 →
      (CalcMag.getMag N s filtObs z (filtRF, aM)).map Prod.fst = .ok (.fin aM)) := by
  refine ⟨fun hdl => ?_, fun hdl => ?_, fun hdl hkc => ?_⟩
  · rw [getMag_eq N s filtObs z (filtRF, aM) kc hk]
    simp [Except.map, if_neg (not_lt.mpr hdl)]
  · rw [getMag_eq N s filtObs z (filtRF, aM) kc hk]
    simp [Except.map, if_pos hdl]
  · subst hkc
    rw [getMag_eq N s filtObs z (filtRF, aM) (.fin 0) hk]
    simp [Except.map, if_neg (not_lt.mpr hdl), RVal.addQ]

/-- Witness for claim C4 at a concrete input: zero k-correction and zero
luminosity distance return the absolute magnitude unchanged. -/
theorem claimC4_witness :
    (CalcMag.getMag Ntest CM1 "u" 1 ("u", 5)).map Prod.fst = .ok (.fin 5) := by
  have h1 : intSED Ntest Pone "u" 1 ≠ 0 := by
    simp [intSED, Pone, Ntest, filtU, integrand1, getTransD, List.lookup]; norm_num
  have h3 : intSED Ntest Pone "u" 0 ≠ 0 := by
    simp [intSED, Pone, Ntest, filtU, integrand1, getTransD, List.lookup]; norm_num
  have hk : kCorrectionXY Ntest Pone "u" "u" 1 = .ok (.fin 0) := by
    rw [kCorrectionXY_ok Ntest Pone "u" "u" 1 filtU filtU rfl rfl h1
      (by simp [I2val]) h3 (by simp [I4val])]
    norm_num [Ntest]
  exact (claimC4_getMag Ntest CM1 "u" 1 "u" 5 (.fin 0) hk).2.2
    (by norm_num [CM1, C0]) rfl

/-- Claim C3: whenever `kCorrectionXY` returns `+inf`, `getMag` returns
`+inf`, and `simulateObservation` returns `(+inf, +inf, +inf)` with the
error model left untouched (its state, including the trace of calls
made to `getObs`, is returned unchanged, for every error model). -/
theorem claimC3_infinity_propagation (N : Numerics) (s : ObsMag) (filtObs : String)
    (z : ℚ) (absMag : String × ℚ) (size : ℚ)
    (hk : kCorrectionXY N s.toPhotCalcs filtObs absMag.1 z = .ok .inf) :
    (CalcMag.getMag N s.toCalcMag filtObs z absMag).map Prod.fst = .ok .inf ∧
    (ObsMag.simulateObservation N s filtObs z absMag size).map Prod.fst =
      .ok (.inf, .inf, .inf) ∧
    (ObsMag.simulateObservation N s filtObs z absMag size).map
      (fun r => r.2.errorModel) = .ok s.errorModel := by
  have hg := getMag_eq N s.toCalcMag filtObs z absMag .inf hk
  refine ⟨?_, ?_, ?_⟩
  · rw [hg]; simp [Except.map, RVal.addQ]
  · simp [ObsMag.simulateObservation, hg, Except.map, RVal.addQ]
  · simp [ObsMag.simulateObservation, hg, Except.map, RVal.addQ]

/-- Witness for claim C3 at a concrete input: a zero SED gives an
infinite k-correction and the degenerate observation triple. -/
theorem claimC3_witness :
    (ObsMag.simulateObservation Ntest S0 "u" 1 ("u", 5) (-1)).map Prod.fst =
      .ok (.inf, .inf, .inf) ∧
    (ObsMag.simulateObservation Ntest S0 "u" 1 ("u", 5) (-1)).map
      (fun r => r.2.errorModel) = .ok S0.errorModel := by
  have hk : kCorrectionXY Ntest Pzero "u" "u" 1 = .ok .inf := by
    simp [kCorrectionXY, Pzero, List.lookup, Ntest, integrand1, getTransD, filtU]
  have h := claimC3_infinity_propagation Ntest S0 "u" 1 ("u", 5) (-1) hk
  exact ⟨h.2.1, h.2.2⟩

/-- Claim C9: when the true magnitude is finite, `simulateObservation`
calls the error model exactly once, with the true magnitude, the
observation filter, the SED and the size (the trace of the error model
is extended by exactly that one call), and returns the pair it yields
followed by the true magnitude. -/
theorem claimC9_simulateObservation_finite (N : Numerics) (s : ObsMag)
    (filtObs : String) (z : ℚ) (absMag : String × ℚ) (size : ℚ) (m : ℚ)
    (cm : CalcMag)
    (hm : CalcMag.getMag N s.toCalcMag filtObs z absMag = .ok (.fin m, cm)) :
    ObsMag.simulateObservation N s filtObs z absMag size =
      .ok ((.fin (s.errorModel.obsAt m filtObs s.sed size).1,
            .fin (s.errorModel.obsAt m filtObs s.sed size).2,
            .fin m),
          { toCalcMag := cm,
            errorModel := { obsAt := s.errorModel.obsAt,
                            trace := s.errorModel.trace ++ [(m, filtObs, s.sed, size)] } }) := by
  have hsed : cm.sed = s.sed :=
    congrArg PhotCalcs.sed (getMag_frame N s.toCalcMag filtObs z absMag (.fin m, cm) hm).1
  simp [ObsMag.simulateObservation, hm, ErrorModel.getObs, hsed]

/-- Witness for claim C9 at a concrete input: flat SED, echoing error
model, true magnitude 5. -/
theorem claimC9_witness :
    ObsMag.simulateObservation Ntest SM1 "u" 1 ("u", 5) (-1) =
      .ok ((.fin (SM1.errorModel.obsAt 5 "u" SM1.sed (-1)).1,
            .fin (SM1.errorModel.obsAt 5 "u" SM1.sed (-1)).2,
            .fin 5),
          { toCalcMag :=
              { toPhotCalcs := Pone,
                cosmoModel := { zEmission := 1, lumDistAt := fun _ => 0,
                                trace := [CosmoCall.setZ 1, CosmoCall.readDist] } },
            errorModel := { obsAt := SM1.errorModel.obsAt,
                            trace := SM1.errorModel.trace ++ [(5, "u", SM1.sed, -1)] } }) := by
  have h1 : intSED Ntest Pone "u" 1 ≠ 0 := by
    simp [intSED, Pone, Ntest, filtU, integrand1, getTransD, List.lookup]; norm_num
  have h3 : intSED Ntest Pone "u" 0 ≠ 0 := by
    simp [intSED, Pone, Ntest, filtU, integrand1, getTransD, List.lookup]; norm_num
  have hkc : kCorrectionXY Ntest Pone "u" "u" 1 = .ok (.fin 0) := by
    rw [kCorrectionXY_ok Ntest Pone "u" "u" 1 filtU filtU rfl rfl h1
      (by simp [I2val]) h3 (by simp [I4val])]
    norm_num [Ntest]
  have hm : CalcMag.getMag Ntest CM1 "u" 1 ("u", 5) =
      .ok (.fin 5,
        { toPhotCalcs := Pone,
          cosmoModel := { zEmission := 1, lumDistAt := fun _ => 0,
                          trace := [CosmoCall.setZ 1, CosmoCall.readDist] } }) := by
    rw [getMag_eq Ntest CM1 "u" 1 ("u", 5) (.fin 0) hkc]
    norm_num [CM1, C0, RVal.addQ]
  exact claimC9_simulateObservation_finite Ntest SM1 "u" 1 ("u", 5) (-1) 5 _ hm

/-- Claim C10: every successful `getMag` leaves the SED and filter
collection unchanged and mutates only the cosmology model, whose
resulting state records exactly the protocol set-redshift-then-read-
distance (so the distance is read even when the k-correction is
infinite: the short-circuit is never taken); `simulateObservation`
additionally leaves the observation law of the error model unchanged. -/
theorem claimC10_frame (N : Numerics) (s : ObsMag) (filtObs : String) (z : ℚ)
    (absMag : String × ℚ) (size : ℚ) :
    (∀ r, CalcMag.getMag N s.toCalcMag filtObs z absMag = .ok r →
      r.2.toPhotCalcs = s.toPhotCalcs ∧
      r.2.cosmoModel = { zEmission := z, lumDistAt := s.cosmoModel.lumDistAt,
                         trace := s.cosmoModel.trace ++
                           [CosmoCall.setZ z, CosmoCall.readDist] }) ∧
    (∀ r, ObsMag.simulateObservation N s filtObs z absMag size = .ok r →
      r.2.toPhotCalcs = s.toPhotCalcs ∧
      r.2.cosmoModel = { zEmission := z, lumDistAt := s.cosmoModel.lumDistAt,
                         trace := s.cosmoModel.trace ++
                           [CosmoCall.setZ z, CosmoCall.readDist] } ∧
      r.2.errorModel.obsAt = s.errorModel.obsAt) ∧
    (kCorrectionXY N s.toPhotCalcs filtObs absMag.1 z = .ok .inf →
      CalcMag.getMag N s.toCalcMag filtObs z absMag =
        .ok (.inf,
          { toPhotCalcs := s.toPhotCalcs,
            cosmoModel := { zEmission := z, lumDistAt := s.cosmoModel.lumDistAt,
                            trace := s.cosmoModel.trace ++
                              [CosmoCall.setZ z, CosmoCall.readDist] } })) := by
  refine ⟨fun r h => getMag_frame N s.toCalcMag filtObs z absMag r h, fun r h => ?_,
    fun hk => ?_⟩
  · revert h
    cases hg : CalcMag.getMag N s.toCalcMag filtObs z absMag with
    | error e => simp [ObsMag.simulateObservation, hg]
    | ok p =>
      obtain ⟨mag, cm⟩ := p
      have hf := getMag_frame N s.toCalcMag filtObs z absMag (mag, cm) hg
      cases mag with
      | inf =>
        intro h
        simp only [ObsMag.simulateObservation, hg] at h
        have hr := (Except.ok.inj h).symm
        subst hr
        exact ⟨hf.1, hf.2, rfl⟩
      | fin m =>
        intro h
        simp only [ObsMag.simulateObservation, hg, ErrorModel.getObs] at h
        have hr := (Except.ok.inj h).symm
        subst hr
        exact ⟨hf.1, hf.2, rfl⟩
  · rw [getMag_eq N s.toCalcMag filtObs z absMag .inf hk]
    simp [RVal.addQ]

/-- Witness for claim C10 at a concrete input: the flat-SED observation
state; the resulting cosmology model records the set-then-read trace. -/
theorem claimC10_witness :
    ({ toPhotCalcs := Pone,
       cosmoModel := { zEmission := 1, lumDistAt := fun _ => 0,
                       trace := [CosmoCall.setZ 1, CosmoCall.readDist] } } :
        CalcMag).toPhotCalcs = SM1.toPhotCalcs ∧
    ({ toPhotCalcs := Pone,
       cosmoModel := { zEmission := 1, lumDistAt := fun _ => 0,
                       trace := [CosmoCall.setZ 1, CosmoCall.readDist] } } :
        CalcMag).cosmoModel =
      { zEmission := 1, lumDistAt := SM1.cosmoModel.lumDistAt,
        trace := SM1.cosmoModel.trace ++ [CosmoCall.setZ 1, CosmoCall.readDist] } := by
  have h1 : intSED Ntest Pone "u" 1 ≠ 0 := by
    simp [intSED, Pone, Ntest, filtU, integrand1, getTransD, List.lookup]; norm_num
  have h3 : intSED Ntest Pone "u" 0 ≠ 0 := by
    simp [intSED, Pone, Ntest, filtU, integrand1, getTransD, List.lookup]; norm_num
  have hkc : kCorrectionXY Ntest Pone "u" "u" 1 = .ok (.fin 0) := by
    rw [kCorrectionXY_ok Ntest Pone "u" "u" 1 filtU filtU rfl rfl h1
      (by simp [I2val]) h3 (by simp [I4val])]
    norm_num [Ntest]
  have hm : CalcMag.getMag Ntest CM1 "u" 1 ("u", 5) =
      .ok (.fin 5,
        { toPhotCalcs := Pone,
          cosmoModel := { zEmission := 1, lumDistAt := fun _ => 0,
                          trace := [CosmoCall.setZ 1, CosmoCall.readDist] } }) := by
    rw [getMag_eq Ntest CM1 "u" 1 ("u", 5) (.fin 0) hkc]
    norm_num [CM1, C0, RVal.addQ]
  exact (claimC10_frame Ntest SM1 "u" 1 ("u", 5) (-1)).1 _ hm

end PhotoZDC1
